import Mathlib

/-!
Shallow embedding of the `holdmypotion/content-gen` repository
(`src/server/db/mongodb.py`, `src/server/tasks/content.py`,
`src/server/controllers/generate.py`, `src/server/controllers/routes.py`),
together with theorems settling the specification claims about it.

Python dictionaries / BSON documents are modelled as association lists of
field name and value; the MongoDB `contents` collection is modelled as an
association list from generated `_id` strings to documents plus a counter
used to mint fresh ids; the points at which the Python code calls
`datetime.now().isoformat()` take an explicit `now : String` parameter; the
Jinja render and the generative-provider calls are oracles supplied in a
`TaskEnv`; fallible Python code (code that may raise) returns `Except`.
-/

/-- Values stored in a BSON document field: a string, an array of strings,
or Python `None` (serialized as BSON null). These are the only value shapes
the repository ever writes or reads. -/
inductive BVal where
  | str : String → BVal
  | arr : List String → BVal
  | null : BVal
deriving DecidableEq, Repr

/-- A BSON document / Python dict: ordered field-name/value pairs.
Documents built from Python dicts have pairwise distinct keys. -/
abbrev Doc := List (String × BVal)

/-- Field read, `d.get(k)` / `d[k]`: value of the first pair with key `k`. -/
def dget (d : Doc) (k : String) : Option BVal :=
  match d with
  | [] => none
  | (k1, v) :: rest => if k1 = k then some v else dget rest k

/-- Python `d.get(k, default)`. -/
def dgetD (d : Doc) (k : String) (v0 : BVal) : BVal :=
  match dget d k with
  | some v => v
  | none => v0

/-- Field write, `d[k] = v`: replaces the value at the first occurrence of
`k`, keeping its position; appends the pair at the end when `k` is absent
(MongoDB `$set` / Python dict assignment semantics). -/
def dset (d : Doc) (k : String) (v : BVal) : Doc :=
  match d with
  | [] => [(k, v)]
  | (k1, v1) :: rest => if k1 = k then (k, v) :: rest else (k1, v1) :: dset rest k v

/-- MongoDB `$set` of a whole update document: set each field in turn. -/
def dsetAll (d : Doc) (upd : Doc) : Doc :=
  match upd with
  | [] => d
  | (k, v) :: rest => dsetAll (dset d k v) rest

/-- Python truthiness test `not x` on an optional field value: true for a
missing field, `None`, the empty string and the empty list. -/
def pyFalsy (v : Option BVal) : Bool :=
  match v with
  | none => true
  | some (BVal.str s) => s.isEmpty
  | some (BVal.arr l) => l.isEmpty
  | some BVal.null => true

/-- The `contents` collection: documents keyed by their `_id` string
(newest first, as MongoDB ids are never reused the order is immaterial),
plus a counter used to mint fresh ObjectIds on `insert_one`. -/
structure Store where
  docs : List (String × Doc)
  counter : Nat
deriving DecidableEq, Repr

/-- Lookup by id in the underlying key/document list. -/
def lookupDoc (docs : List (String × Doc)) (id : String) : Option Doc :=
  match docs with
  | [] => none
  | (k, d) :: rest => if k = id then some d else lookupDoc rest id

/-- Replace the document stored under `id` in the key/document list. -/
def replaceDoc (docs : List (String × Doc)) (id : String) (newDoc : Doc) : List (String × Doc) :=
  match docs with
  | [] => []
  | (k, d) :: rest =>
      if k = id then (k, newDoc) :: rest
      else (k, d) :: replaceDoc rest id newDoc

/-- Remove the document stored under `id` from the key/document list. -/
def removeDoc (docs : List (String × Doc)) (id : String) : List (String × Doc) :=
  match docs with
  | [] => []
  | (k, d) :: rest => if k = id then rest else (k, d) :: removeDoc rest id

/-- `find_one({"_id": id})`. -/
def Store.lookup (st : Store) (id : String) : Option Doc :=
  lookupDoc st.docs id

/-- Replace the document stored under `id` (used by `update_one`). -/
def Store.replace (st : Store) (id : String) (newDoc : Doc) : Store :=
  ⟨replaceDoc st.docs id newDoc, st.counter⟩

/-- Remove the document stored under `id` (used by `delete_one`). -/
def Store.remove (st : Store) (id : String) : Store :=
  ⟨removeDoc st.docs id, st.counter⟩

/-- The `n`-th lowercase hex digit (codepoint arithmetic: digits then
letters). -/
def hexChar (n : Nat) : Char :=
  if n < 10 then Char.ofNat (48 + n) else Char.ofNat (87 + n)

/-- A fresh 24-hex-character ObjectId string minted from the store's
counter (little-endian digit order; any injective hex encoding serves). -/
def freshId (n : Nat) : String :=
  String.mk ((List.range 24).map (fun i => hexChar (n / 16 ^ i % 16)))

/-- A hex digit as accepted by `bson.ObjectId`: `0-9`, `a-f`, `A-F`. -/
def isHexDigitB (c : Char) : Bool :=
  c.isDigit || (97 ≤ c.toNat && c.toNat ≤ 102) || (65 ≤ c.toNat && c.toNat ≤ 70)

/-- `bson.ObjectId(s)` succeeds exactly on 24-character hex strings;
anything else raises `bson.errors.InvalidId`. -/
def isValidObjectId (s : String) : Bool :=
  s.length = 24 && s.data.all isHexDigitB

/-- The exception text our embedding uses for `bson.errors.InvalidId`. -/
def invalidIdMsg : String := "bson.errors.InvalidId: not a valid ObjectId"

/-- `MongoDB.save_content` (db/mongodb.py): sets `timestamp` when the key
is absent, then `insert_one`; returns the string of the inserted id.
(`insert_one` itself fails only on a store outage, which is outside this
embedding; the operation is modelled as total.) -/
def MongoDB.save_content (st : Store) (now : String) (data : Doc) : String × Store :=
  let data1 := if (dget data "timestamp").isSome then data else dset data "timestamp" (BVal.str now)
  let id := freshId st.counter
  (id, ⟨(id, data1) :: st.docs, st.counter + 1⟩)

/-- `MongoDB.update_content` (db/mongodb.py): sets `updated_at` on the
update dict, then `update_one({"_id": ObjectId(id)}, {"$set": upd})` and
returns `modified_count > 0`. A malformed id makes `ObjectId` raise, which
the method re-raises; `modified_count` is positive exactly when a document
matched and the `$set` actually changed it. -/
def MongoDB.update_content (st : Store) (document_id : String) (update_data : Doc) (now : String) : Except String (Bool × Store) :=
  if isValidObjectId document_id then
    let upd := dset update_data "updated_at" (BVal.str now)
    match Store.lookup st document_id with
    | none => Except.ok (false, st)
    | some doc =>
        let newDoc := dsetAll doc upd
        if newDoc = doc then Except.ok (false, st)
        else Except.ok (true, Store.replace st document_id newDoc)
  else Except.error invalidIdMsg

/-- `MongoDB.get_content` (db/mongodb.py): `find_one({"_id": ObjectId(id)})`,
returning the document or `none`; a malformed id raises. -/
def MongoDB.get_content (st : Store) (document_id : String) : Except String (Option Doc) :=
  if isValidObjectId document_id then Except.ok (Store.lookup st document_id)
  else Except.error invalidIdMsg

/-- `MongoDB.delete_content` (db/mongodb.py): `delete_one`, returning
`deleted_count > 0`; a malformed id raises. -/
def MongoDB.delete_content (st : Store) (document_id : String) : Except String (Bool × Store) :=
  if isValidObjectId document_id then
    match Store.lookup st document_id with
    | none => Except.ok (false, st)
    | some _ => Except.ok (true, Store.remove st document_id)
  else Except.error invalidIdMsg

/-- `MongoDB.append_post`: the task bodies in tasks/content.py call
`db.append_post(db_file, post)`, but the `MongoDB` class in db/mongodb.py
defines no method named `append_post` (its methods are `connect`,
`save_content`, `update_content`, `get_content`, `get_all_contents`,
`get_contents_by_type`, `delete_content`, `close`). In Python the attribute
access therefore raises `AttributeError` before touching the store, so the
call is embedded as an operation that always fails and leaves the store
unchanged. -/
def MongoDB.append_post (st : Store) (document_id : String) (post : String) : Except String Store :=
  Except.error ("AttributeError: MongoDB object has no attribute append_post, id=" ++ document_id ++ ", post=" ++ post)


-- The task layer (src/server/tasks/content.py).

/-- Outcome of one fallible external call (a Jinja render or a
generative-provider request): the produced string or the exception text. -/
inductive CallResult where
  | ok : String → CallResult
  | err : String → CallResult
deriving DecidableEq, Repr

/-- External collaborators of a task body: the content of the
`ref.jinja2` reference-posts file as loaded by `load_reference_posts`
(that helper returns the empty string when the file cannot be read), the
Jinja environment (`template name → context → rendered prompt`), and the
two provider calls (`prompt → generated text`). -/
structure TaskEnv where
  ref_file : String
  render : String → Doc → CallResult
  produce_gemini : String → CallResult
  produce_gpt : String → CallResult

/-- Context passed to `idea_template.jinja2` by the gemini idea task. -/
def idea_ctx_gemini (ref_file reference_keywords : String) : Doc :=
  [("reference_keywords", BVal.str reference_keywords), ("reference_posts", BVal.str ref_file)]

/-- Context passed to `idea_template.jinja2` by the gpt idea task (that
task renders the template without the loaded reference posts). -/
def idea_ctx_gpt (reference_keywords : String) : Doc :=
  [("reference_keywords", BVal.str reference_keywords)]

/-- Context passed to `post_template.jinja2` by all four post tasks. -/
def post_ctx (ref_file idea reference_keywords : String) : Doc :=
  [("idea", BVal.str idea), ("reference_keywords", BVal.str reference_keywords),
   ("reference_posts", BVal.str ref_file)]

/-- The dict a task body returns from its `except` handler:
`{'status': 'error', 'error': str(e)}`. -/
def pyErrDoc (e : String) : Doc :=
  [("status", BVal.str ("error")), ("error", BVal.str e)]

/-- Python `reference_posts or []` on an optional list argument. -/
def pyOrEmpty (o : Option (List String)) : List String := o.getD []

/-- Python truthiness of an optional string (`if db_file:`): false for
`None` and for the empty string. -/
def pyTruthy (o : Option String) : Bool :=
  match o with
  | none => false
  | some s => !s.isEmpty

/-- JSON value of an optional string (`None` becomes null). -/
def bvalOfStrOpt (o : Option String) : BVal :=
  match o with
  | none => BVal.null
  | some s => BVal.str s

/-- JSON value of an optional list of strings (`None` becomes null). -/
def bvalOfPostsOpt (o : Option (List String)) : BVal :=
  match o with
  | none => BVal.null
  | some l => BVal.arr l

/-- A task handed to `celery_app.send_task` / `.delay`. -/
structure SentTask where
  name : String
  args : List BVal
  kwargs : Doc
deriving DecidableEq, Repr

/-- Task `tasks.generate_idea_gemini` (tasks/content.py): render the idea
template, call Gemini, save the idea record, chain the post task, and
return `{'status': 'success', 'idea': ..., 'db_file': ...}`; any exception
is caught and returned as `{'status': 'error', 'error': str(e)}`. -/
def generate_idea_gemini (env : TaskEnv) (now : String) (st : Store)
    (reference_keywords : String) (reference_posts : Option (List String)) :
    Doc × Store × List SentTask :=
  match env.render ("idea_template.jinja2") (idea_ctx_gemini env.ref_file reference_keywords) with
  | CallResult.err e => (pyErrDoc e, st, [])
  | CallResult.ok prompt =>
    match env.produce_gemini prompt with
    | CallResult.err e => (pyErrDoc e, st, [])
    | CallResult.ok idea =>
        let idea_data : Doc :=
          [("timestamp", BVal.str now), ("type", BVal.str ("idea")),
           ("provider", BVal.str ("gemini")),
           ("reference_keywords", BVal.str reference_keywords),
           ("reference_posts", BVal.arr (pyOrEmpty reference_posts)),
           ("idea", BVal.str idea), ("posts", BVal.arr [])]
        let saved := MongoDB.save_content st now idea_data
        ([("status", BVal.str ("success")), ("idea", BVal.str idea), ("db_file", BVal.str saved.1)],
         saved.2,
         [⟨"tasks.generate_post_gemini", [],
           [("idea", BVal.str idea), ("reference_keywords", BVal.str reference_keywords),
            ("reference_posts", BVal.arr (pyOrEmpty reference_posts)),
            ("db_file", BVal.str saved.1)]⟩])

/-- Task `tasks.generate_idea_gpt` (tasks/content.py). Differences from the
gemini variant: the idea template is rendered without the loaded reference
posts, the OpenAI call is used, and the idea record lists its keys in the
order `timestamp, type, reference_keywords, provider, ...`. -/
def generate_idea_gpt (env : TaskEnv) (now : String) (st : Store)
    (reference_keywords : String) (reference_posts : Option (List String)) :
    Doc × Store × List SentTask :=
  match env.render ("idea_template.jinja2") (idea_ctx_gpt reference_keywords) with
  | CallResult.err e => (pyErrDoc e, st, [])
  | CallResult.ok prompt =>
    match env.produce_gpt prompt with
    | CallResult.err e => (pyErrDoc e, st, [])
    | CallResult.ok idea =>
        let idea_data : Doc :=
          [("timestamp", BVal.str now), ("type", BVal.str ("idea")),
           ("reference_keywords", BVal.str reference_keywords),
           ("provider", BVal.str ("gpt")),
           ("reference_posts", BVal.arr (pyOrEmpty reference_posts)),
           ("idea", BVal.str idea), ("posts", BVal.arr [])]
        let saved := MongoDB.save_content st now idea_data
        ([("status", BVal.str ("success")), ("idea", BVal.str idea), ("db_file", BVal.str saved.1)],
         saved.2,
         [⟨"tasks.generate_post_gpt", [],
           [("idea", BVal.str idea), ("reference_keywords", BVal.str reference_keywords),
            ("reference_posts", BVal.arr (pyOrEmpty reference_posts)),
            ("db_file", BVal.str saved.1)]⟩])

/-- Task `tasks.generate_post_gemini` (tasks/content.py): render the post
template, call Gemini; when `db_file` is truthy, try `db.append_post` and
on any exception fall back to creating a brand-new `post` record; when
`db_file` is falsy, create a new `post` record. -/
def generate_post_gemini (env : TaskEnv) (now : String) (st : Store)
    (idea reference_keywords : String) (reference_posts : Option (List String))
    (db_file : Option String) : Doc × Store :=
  match env.render ("post_template.jinja2") (post_ctx env.ref_file idea reference_keywords) with
  | CallResult.err e => (pyErrDoc e, st)
  | CallResult.ok prompt =>
    match env.produce_gemini prompt with
    | CallResult.err e => (pyErrDoc e, st)
    | CallResult.ok post =>
        let post_data : Doc :=
          [("timestamp", BVal.str now), ("type", BVal.str ("post")),
           ("provider", BVal.str ("gemini")),
           ("reference_keywords", BVal.str reference_keywords),
           ("reference_posts", BVal.arr (pyOrEmpty reference_posts)),
           ("idea", BVal.str idea), ("posts", BVal.arr [post])]
        if pyTruthy db_file then
          match MongoDB.append_post st (db_file.getD ("")) post with
          | Except.ok st1 =>
              ([("status", BVal.str ("success")), ("post", BVal.str post),
                ("db_file", bvalOfStrOpt db_file)], st1)
          | Except.error _ =>
              let saved := MongoDB.save_content st now post_data
              ([("status", BVal.str ("success")), ("post", BVal.str post),
                ("db_file", BVal.str saved.1)], saved.2)
        else
          let saved := MongoDB.save_content st now post_data
          ([("status", BVal.str ("success")), ("post", BVal.str post),
            ("db_file", BVal.str saved.1)], saved.2)

/-- Task `tasks.generate_post_gpt` (tasks/content.py): same shape as the
gemini variant with the OpenAI call and `provider='gpt'`. -/
def generate_post_gpt (env : TaskEnv) (now : String) (st : Store)
    (idea reference_keywords : String) (reference_posts : Option (List String))
    (db_file : Option String) : Doc × Store :=
  match env.render ("post_template.jinja2") (post_ctx env.ref_file idea reference_keywords) with
  | CallResult.err e => (pyErrDoc e, st)
  | CallResult.ok prompt =>
    match env.produce_gpt prompt with
    | CallResult.err e => (pyErrDoc e, st)
    | CallResult.ok post =>
        let post_data : Doc :=
          [("timestamp", BVal.str now), ("type", BVal.str ("post")),
           ("provider", BVal.str ("gpt")),
           ("reference_keywords", BVal.str reference_keywords),
           ("reference_posts", BVal.arr (pyOrEmpty reference_posts)),
           ("idea", BVal.str idea), ("posts", BVal.arr [post])]
        if pyTruthy db_file then
          match MongoDB.append_post st (db_file.getD ("")) post with
          | Except.ok st1 =>
              ([("status", BVal.str ("success")), ("post", BVal.str post),
                ("db_file", bvalOfStrOpt db_file)], st1)
          | Except.error _ =>
              let saved := MongoDB.save_content st now post_data
              ([("status", BVal.str ("success")), ("post", BVal.str post),
                ("db_file", BVal.str saved.1)], saved.2)
        else
          let saved := MongoDB.save_content st now post_data
          ([("status", BVal.str ("success")), ("post", BVal.str post),
            ("db_file", BVal.str saved.1)], saved.2)

/-- Task `tasks.regenerate_post_gemini` (tasks/content.py): render the post
template, call Gemini; when `db_file` is truthy, call `db.append_post`
directly (NOT inside a nested try, so an exception there reaches the outer
handler and fails the task); it never creates a new record. The
`reference_posts` parameter exists in the source signature but is unused by
the body. -/
def regenerate_post_gemini (env : TaskEnv) (now : String) (st : Store)
    (idea reference_keywords : String) (reference_posts : Option (List String))
    (db_file : Option String) : Doc × Store :=
  match env.render ("post_template.jinja2") (post_ctx env.ref_file idea reference_keywords) with
  | CallResult.err e => (pyErrDoc e, st)
  | CallResult.ok prompt =>
    match env.produce_gemini prompt with
    | CallResult.err e => (pyErrDoc e, st)
    | CallResult.ok post =>
        if pyTruthy db_file then
          match MongoDB.append_post st (db_file.getD ("")) post with
          | Except.ok st1 =>
              ([("status", BVal.str ("success")), ("post", BVal.str post),
                ("db_file", bvalOfStrOpt db_file)], st1)
          | Except.error e => (pyErrDoc e, st)
        else
          ([("status", BVal.str ("success")), ("post", BVal.str post),
            ("db_file", bvalOfStrOpt db_file)], st)

/-- Task `tasks.regenerate_post_gpt` (tasks/content.py): same shape as the
gemini variant with the OpenAI call. -/
def regenerate_post_gpt (env : TaskEnv) (now : String) (st : Store)
    (idea reference_keywords : String) (reference_posts : Option (List String))
    (db_file : Option String) : Doc × Store :=
  match env.render ("post_template.jinja2") (post_ctx env.ref_file idea reference_keywords) with
  | CallResult.err e => (pyErrDoc e, st)
  | CallResult.ok prompt =>
    match env.produce_gpt prompt with
    | CallResult.err e => (pyErrDoc e, st)
    | CallResult.ok post =>
        if pyTruthy db_file then
          match MongoDB.append_post st (db_file.getD ("")) post with
          | Except.ok st1 =>
              ([("status", BVal.str ("success")), ("post", BVal.str post),
                ("db_file", bvalOfStrOpt db_file)], st1)
          | Except.error e => (pyErrDoc e, st)
        else
          ([("status", BVal.str ("success")), ("post", BVal.str post),
            ("db_file", bvalOfStrOpt db_file)], st)

-- The API layer (src/server/controllers/generate.py, routes.py).

/-- Result of a controller call: a response value or a raised
`HTTPException(status_code, detail)`. -/
inductive ApiResult (α : Type) where
  | ok : α → ApiResult α
  | httpError : Nat → String → ApiResult α
deriving DecidableEq, Repr

/-- `GenerateRequest` (routes.py): `reference_keywords: str`,
`reference_posts: Optional[list] = None`, `provider: Optional[str] = "gemini"`. -/
structure GenerateRequest where
  reference_keywords : String
  reference_posts : Option (List String)
  provider : Option String
deriving DecidableEq, Repr

/-- `RegeneratePostRequest` (routes.py): `content_id: str`,
`provider: Optional[str] = "gemini"`. -/
structure RegeneratePostRequest where
  content_id : String
  provider : Option String
deriving DecidableEq, Repr

/-- Pydantic parsing of a generate request body. The outer `Option` on a
field is presence in the JSON body: an omitted `reference_posts` defaults
to `None` and an omitted `provider` defaults to the string `"gemini"`
(while an explicit JSON null yields `None`). -/
def parseGenerateRequest (reference_keywords : String)
    (reference_posts : Option (Option (List String)))
    (provider : Option (Option String)) : GenerateRequest :=
  ⟨reference_keywords, reference_posts.getD none, provider.getD (some ("gemini"))⟩

/-- Pydantic parsing of a regenerate-post request body: an omitted
`provider` defaults to the string `"gemini"`. -/
def parseRegeneratePostRequest (content_id : String)
    (provider : Option (Option String)) : RegeneratePostRequest :=
  ⟨content_id, provider.getD (some ("gemini"))⟩

/-- `GenerateResponse` (routes.py). -/
structure GenerateResponse where
  task_id : String
  message : String
  status : String
deriving DecidableEq, Repr

/-- Python string formatting of an `Optional[str]` in an f-string. -/
def pyStrOfOpt (o : Option String) : String :=
  match o with
  | some s => s
  | none => "None"

/-- Python whitespace as recognized by `str.strip()`. -/
def pyIsSpace (c : Char) : Bool :=
  c = ' ' || c = '\t' || c = '\n' || c = '\r' || c = '\x0b' || c = '\x0c'

/-- Python `str.strip()`. -/
def pyStrip (s : String) : String :=
  String.mk (((s.data.dropWhile pyIsSpace).reverse.dropWhile pyIsSpace).reverse)

/-- The `provider_tasks` allow-list dict of `initiate_generation`
(controllers/generate.py, lines 23-26), looked up with the request's
optional provider (`dict.get` on a `None` key yields `None`). -/
def provider_tasks_idea (p : Option String) : Option String :=
  match p with
  | none => none
  | some s =>
      if s = "gemini" then some ("tasks.generate_idea_gemini")
      else if s = "gpt" then some ("tasks.generate_idea_gpt")
      else none

/-- The `provider_tasks` allow-list dict of `initiate_post_regeneration`
(controllers/generate.py, lines 139-142). -/
def provider_tasks_regen (p : Option String) : Option String :=
  match p with
  | none => none
  | some s =>
      if s = "gemini" then some ("tasks.regenerate_post_gemini")
      else if s = "gpt" then some ("tasks.regenerate_post_gpt")
      else none

/-- `initiate_generation` (controllers/generate.py): validate that the
keywords are non-empty after stripping, resolve the provider against the
allow-list, enqueue the idea task and answer `status: "pending"`; the new
celery task id is the `newTaskId` parameter. Returns the response together
with the list of tasks handed to `send_task`. -/
def initiate_generation (request : GenerateRequest) (newTaskId : String) :
    ApiResult GenerateResponse × List SentTask :=
  if (pyStrip request.reference_keywords).isEmpty then
    (ApiResult.httpError 400 ("reference_keywords cannot be empty"), [])
  else
    match provider_tasks_idea request.provider with
    | none =>
        (ApiResult.httpError 400 ("Invalid provider specified: " ++ pyStrOfOpt request.provider), [])
    | some task_name =>
        (ApiResult.ok ⟨newTaskId, "Content generation started with " ++ pyStrOfOpt request.provider, "pending"⟩,
         [⟨task_name, [BVal.str request.reference_keywords],
           [("reference_posts", bvalOfPostsOpt request.reference_posts)]⟩])

/-- The state of one task as read back from the celery result backend:
`PENDING`, `PROGRESS` (with its meta dict), `SUCCESS` (with the dict the
task body returned), `FAILURE` (with the exception text), or any other
backend state string. -/
inductive CeleryState where
  | pending : CeleryState
  | progress : Doc → CeleryState
  | success : Doc → CeleryState
  | failure : String → CeleryState
  | other : String → CeleryState
deriving DecidableEq, Repr

/-- `TaskStatusResponse` (routes.py). -/
structure TaskStatusResponse where
  task_id : String
  status : String
  result : Option Doc
  error : Option BVal
deriving DecidableEq, Repr

/-- `get_task_status` (controllers/generate.py): map the backend state of
the task to the reported response, demoting a `SUCCESS` whose payload
carries `status: 'error'` to `failed`. -/
def get_task_status (task_id : String) (state : CeleryState) : TaskStatusResponse :=
  match state with
  | CeleryState.pending =>
      { task_id := task_id, status := "pending", result := none, error := none }
  | CeleryState.progress info =>
      { task_id := task_id, status := "in_progress", result := some info, error := none }
  | CeleryState.success task_result =>
      if dget task_result ("status") = some (BVal.str ("error")) then
        { task_id := task_id, status := "failed", result := none,
          error := some (dgetD task_result ("error") (BVal.str ("Unknown error"))) }
      else
        { task_id := task_id, status := "SUCCESS", result := some task_result, error := none }
  | CeleryState.failure info =>
      { task_id := task_id, status := "failed", result := none, error := some (BVal.str info) }
  | CeleryState.other s =>
      { task_id := task_id, status := s.toLower, result := none, error := none }

/-- `initiate_post_regeneration` (controllers/generate.py): look the
record up (a malformed id raises inside `get_content` and surfaces as a
500), then require a truthy `idea`, then resolve the provider, then
enqueue the regenerate-post task. -/
def initiate_post_regeneration (st : Store) (request : RegeneratePostRequest)
    (newTaskId : String) : ApiResult GenerateResponse × List SentTask :=
  match MongoDB.get_content st request.content_id with
  | Except.error e =>
      (ApiResult.httpError 500 ("Failed to initiate post regeneration: " ++ e), [])
  | Except.ok none =>
      (ApiResult.httpError 404 ("Content with ID " ++ request.content_id ++ " not found"), [])
  | Except.ok (some content) =>
      let idea := dget content ("idea")
      if pyFalsy idea then
        (ApiResult.httpError 400 ("No idea found in content. Cannot regenerate post without an idea."), [])
      else
        match provider_tasks_regen request.provider with
        | none =>
            (ApiResult.httpError 400 ("Invalid provider specified: " ++ pyStrOfOpt request.provider), [])
        | some task_name =>
            (ApiResult.ok ⟨newTaskId, "Post regeneration started with " ++ pyStrOfOpt request.provider, "pending"⟩,
             [⟨task_name, [idea.getD BVal.null],
               [("reference_keywords", dgetD content ("reference_keywords") (BVal.str (""))),
                ("reference_posts", dgetD content ("reference_posts") (BVal.arr [])),
                ("db_file", BVal.str request.content_id)]⟩])

/-- Route `GET content/{content_id}` (routes.py): 404 when absent, 500
when the store raises (e.g. malformed ObjectId). -/
def Routes.get_content (st : Store) (content_id : String) : ApiResult Doc :=
  match MongoDB.get_content st content_id with
  | Except.error e => ApiResult.httpError 500 ("Failed to fetch content: " ++ e)
  | Except.ok none => ApiResult.httpError 404 ("Content with ID " ++ content_id ++ " not found")
  | Except.ok (some c) => ApiResult.ok c

/-- Route `PUT content/{content_id}` (routes.py): merge-update then
re-fetch; `False` from the store maps to 404, a raise maps to 500. (When
the re-fetch after a successful update were to return nothing, FastAPI's
response validation would itself fail with a 500; that branch is
unreachable.) -/
def Routes.update_content (st : Store) (content_id : String) (data : Doc) (now : String) :
    ApiResult Doc × Store :=
  match MongoDB.update_content st content_id data now with
  | Except.error e => (ApiResult.httpError 500 ("Failed to update content: " ++ e), st)
  | Except.ok (false, st1) =>
      (ApiResult.httpError 404 ("Content with ID " ++ content_id ++ " not found"), st1)
  | Except.ok (true, st1) =>
      match MongoDB.get_content st1 content_id with
      | Except.ok (some updated) => (ApiResult.ok updated, st1)
      | _ => (ApiResult.httpError 500 ("Failed to update content: response validation failed"), st1)

/-- Route `DELETE content/{content_id}` (routes.py). -/
def Routes.delete_content (st : Store) (content_id : String) : ApiResult String × Store :=
  match MongoDB.delete_content st content_id with
  | Except.error e => (ApiResult.httpError 500 ("Failed to delete content: " ++ e), st)
  | Except.ok (false, st1) =>
      (ApiResult.httpError 404 ("Content with ID " ++ content_id ++ " not found"), st1)
  | Except.ok (true, st1) => (ApiResult.ok ("Content deleted successfully"), st1)



-- Concrete sample data used by individual claim evaluations.

/-- A well-formed 24-hex-character ObjectId naming an existing idea record. -/
def c1Id : String := "aabbccddeeff001122334455"

/-- An idea record with a non-empty idea and an empty `posts` array. -/
def c1Doc : Doc :=
  [("timestamp", BVal.str ("t0")), ("type", BVal.str ("idea")),
   ("provider", BVal.str ("gemini")), ("reference_keywords", BVal.str ("k")),
   ("reference_posts", BVal.arr []), ("idea", BVal.str ("I")),
   ("posts", BVal.arr [])]

/-- A store holding exactly the record `c1Doc` under `c1Id`. -/
def c1Store : Store := ⟨[(c1Id, c1Doc)], 7⟩

/-- Oracles for a run in which both the render and the provider call
succeed. -/
def c1Env : TaskEnv :=
  ⟨"", fun _ _ => CallResult.ok ("PROMPT"),
   fun _ => CallResult.ok ("NEWPOST"), fun _ => CallResult.ok ("NEWPOST")⟩

/-- The document the store holds after `update_content` merges
`update_data` into `d` at time `now` (the $set document is `update_data`
with `updated_at` forced to `now`). -/
def mergedDoc (d : Doc) (update_data : Doc) (now : String) : Doc :=
  dsetAll d (dset update_data ("updated_at") (BVal.str now))

/-- A well-formed ObjectId naming an existing record for the C8 evaluation. -/
def c8Id : String := "ffffffffffffffffffffffff"

/-- A record whose `updated_at` is already `t0`. -/
def c8Doc : Doc := [("idea", BVal.str ("x")), ("updated_at", BVal.str ("t0"))]

/-- A store holding exactly the record `c8Doc` under `c8Id`. -/
def c8Store : Store := ⟨[(c8Id, c8Doc)], 3⟩

-- Basic lemmas about the document and store model.

theorem dget_dset_self (d : Doc) (k : String) (v : BVal) : dget (dset d k v) k = some v := by
  induction d with
  | nil => simp [dset, dget]
  | cons p rest ih =>
      obtain ⟨k1, v1⟩ := p
      by_cases h : k1 = k
      · simp [dset, h, dget]
      · simp [dset, h, dget, ih]

theorem dget_dset_ne (d : Doc) (k k1 : String) (v : BVal) (hne : k1 ≠ k) :
    dget (dset d k1 v) k = dget d k := by
  induction d with
  | nil => simp [dset, dget, hne]
  | cons p rest ih =>
      obtain ⟨k2, v2⟩ := p
      by_cases h : k2 = k1
      · subst h
        simp [dset, dget, hne]
      · by_cases h2 : k2 = k
        · subst h2
          simp [dset, dget, h]
        · simp [dset, dget, h, h2, ih]

theorem dget_dsetAll_not_mem (upd : Doc) (k : String) :
    ∀ d : Doc, (∀ p ∈ upd, p.1 ≠ k) → dget (dsetAll d upd) k = dget d k := by
  induction upd with
  | nil => intro d _; simp [dsetAll]
  | cons p rest ih =>
      intro d h
      obtain ⟨k1, v1⟩ := p
      have hk1 : k1 ≠ k := h (k1, v1) (List.mem_cons_self _ _)
      have hrest : ∀ q ∈ rest, q.1 ≠ k := fun q hq => h q (List.mem_cons_of_mem _ hq)
      simp only [dsetAll]
      rw [ih (dset d k1 v1) hrest, dget_dset_ne d k k1 v1 hk1]

theorem mem_dset (d : Doc) (k : String) (v : BVal) (p : String × BVal)
    (h : p ∈ dset d k v) : p ∈ d ∨ p = (k, v) := by
  induction d with
  | nil =>
      simp only [dset] at h
      right
      exact List.mem_singleton.mp h
  | cons q rest ih =>
      obtain ⟨k1, v1⟩ := q
      by_cases hk : k1 = k
      · subst hk
        simp only [dset, if_pos rfl] at h
        rcases List.mem_cons.mp h with h1 | h1
        · right; exact h1
        · left; exact List.mem_cons_of_mem _ h1
      · simp only [dset, if_neg hk] at h
        rcases List.mem_cons.mp h with h1 | h1
        · left; exact h1 ▸ List.mem_cons_self _ _
        · rcases ih h1 with h2 | h2
          · left; exact List.mem_cons_of_mem _ h2
          · right; exact h2

theorem keys_dset_nodup (d : Doc) (k : String) (v : BVal)
    (h : (d.map Prod.fst).Nodup) : ((dset d k v).map Prod.fst).Nodup := by
  induction d with
  | nil => simp [dset]
  | cons p rest ih =>
      obtain ⟨k1, v1⟩ := p
      rw [List.map_cons, List.nodup_cons] at h
      by_cases hk : k1 = k
      · subst hk
        rw [show dset ((k1, v1) :: rest) k1 v = (k1, v) :: rest from by simp [dset]]
        rw [List.map_cons, List.nodup_cons]
        exact h
      · rw [show dset ((k1, v1) :: rest) k v = (k1, v1) :: dset rest k v from by simp [dset, hk]]
        rw [List.map_cons, List.nodup_cons]
        refine ⟨?_, ih h.2⟩
        intro hmem
        rcases List.mem_map.mp hmem with ⟨q, hq, hq1⟩
        rcases mem_dset rest k v q hq with h2 | h2
        · exact h.1 (List.mem_map.mpr ⟨q, h2, hq1⟩)
        · subst h2; exact hk hq1.symm

theorem mem_dset_self (d : Doc) (k : String) (v : BVal) : (k, v) ∈ dset d k v := by
  induction d with
  | nil => simp [dset]
  | cons p rest ih =>
      obtain ⟨k1, v1⟩ := p
      by_cases hk : k1 = k
      · subst hk
        simp [dset]
      · simp only [dset, if_neg hk]
        exact List.mem_cons_of_mem _ ih

theorem dget_dsetAll_mem (upd : Doc) (k : String) (v : BVal) :
    ∀ d : Doc, (k, v) ∈ upd → (upd.map Prod.fst).Nodup →
    dget (dsetAll d upd) k = some v := by
  induction upd with
  | nil => intro d hmem _; simp at hmem
  | cons p rest ih =>
      intro d hmem hnd
      obtain ⟨k1, v1⟩ := p
      rw [List.map_cons, List.nodup_cons] at hnd
      rcases List.mem_cons.mp hmem with h | h
      · obtain ⟨hk, hv⟩ := Prod.ext_iff.mp h
        simp only at hk hv
        subst hk
        subst hv
        have hknot : ∀ q ∈ rest, q.1 ≠ k := by
          intro q hq hqk
          exact hnd.1 (List.mem_map.mpr ⟨q, hq, hqk⟩)
        simp only [dsetAll]
        rw [dget_dsetAll_not_mem rest k (dset d k v) hknot, dget_dset_self]
      · simp only [dsetAll]
        exact ih (dset d k1 v1) h hnd.2

theorem lookupDoc_replaceDoc_self (docs : List (String × Doc)) (id : String) (nd : Doc)
    (h : (lookupDoc docs id).isSome) :
    lookupDoc (replaceDoc docs id nd) id = some nd := by
  induction docs with
  | nil => simp [lookupDoc] at h
  | cons p rest ih =>
      obtain ⟨k, d⟩ := p
      by_cases hk : k = id
      · subst hk
        simp [replaceDoc, lookupDoc]
      · simp only [lookupDoc, if_neg hk] at h
        simp only [replaceDoc, if_neg hk, lookupDoc, if_neg hk]
        exact ih h

theorem lookupDoc_replaceDoc_ne (docs : List (String × Doc)) (id id2 : String) (nd : Doc)
    (hne : id2 ≠ id) :
    lookupDoc (replaceDoc docs id nd) id2 = lookupDoc docs id2 := by
  induction docs with
  | nil => simp [replaceDoc, lookupDoc]
  | cons p rest ih =>
      obtain ⟨k, d⟩ := p
      by_cases hk : k = id
      · subst hk
        have hne2 : ¬(k = id2) := fun h => hne h.symm
        simp [replaceDoc, lookupDoc, hne2]
      · simp only [replaceDoc, if_neg hk, lookupDoc]
        by_cases hk2 : k = id2
        · simp [hk2]
        · simp [hk2, ih]

theorem hexChar_isHex (k : Nat) (hk : k < 16) : isHexDigitB (hexChar k) = true := by
  interval_cases k <;> decide

theorem freshId_valid (n : Nat) : isValidObjectId (freshId n) = true := by
  have hdata : (freshId n).data = (List.range 24).map (fun i => hexChar (n / 16 ^ i % 16)) := rfl
  have hlen : (freshId n).length = 24 := by
    show (freshId n).data.length = 24
    rw [hdata]
    simp
  unfold isValidObjectId
  rw [hlen, hdata]
  rw [Bool.and_eq_true]
  refine ⟨by simp, ?_⟩
  rw [List.all_eq_true]
  intro c hc
  rcases List.mem_map.mp hc with ⟨i, hi, hci⟩
  subst hci
  exact hexChar_isHex _ (Nat.mod_lt _ (by norm_num))
-- Helper facts about the provider allow-lists.

theorem provider_tasks_idea_eq_none (p : Option String) :
    provider_tasks_idea p = none ↔ (p ≠ some ("gemini") ∧ p ≠ some ("gpt")) := by
  cases p with
  | none => simp [provider_tasks_idea]
  | some s =>
      by_cases h1 : s = "gemini"
      · subst h1; simp [provider_tasks_idea]
      · by_cases h2 : s = "gpt"
        · subst h2; simp [provider_tasks_idea]
        · simp [provider_tasks_idea, h1, h2]

-- Claim theorems.

/-- C2 counterexample: on a terminal-success backend state whose payload
does not signal an internal error, `get_task_status` reports the literal
string `SUCCESS`, not `succeeded` as the claim states. -/
theorem c2_counterexample_status_is_uppercase :
    (get_task_status ("t1") (CeleryState.success
        [("status", BVal.str ("success")), ("idea", BVal.str ("I"))])).status = "SUCCESS"
    ∧ (get_task_status ("t1") (CeleryState.success
        [("status", BVal.str ("success")), ("idea", BVal.str ("I"))])).status ≠ "succeeded" := by
  constructor
  · rfl
  · decide

/-- C2 (amended): for every task whose backend state is terminal-success
and whose payload does not signal an internal error status,
`get_task_status` reports the status as the verbatim celery state string
`SUCCESS` (uppercase) together with the returned payload; the only
statuses ever reported are `pending`, `in_progress`, `SUCCESS` and
`failed`, apart from the lower-cased pass-through of unknown backend
states. -/
theorem c2_success_reports_uppercase_success (task_id : String) (payload : Doc)
    (h : dget payload ("status") ≠ some (BVal.str ("error"))) :
    (get_task_status task_id (CeleryState.success payload)).status = "SUCCESS"
    ∧ (get_task_status task_id (CeleryState.success payload)).result = some payload
    ∧ ∀ state : CeleryState,
        (get_task_status task_id state).status ∈
          (["pending", "in_progress", "SUCCESS", "failed"] : List String)
        ∨ ∃ s, state = CeleryState.other s ∧ (get_task_status task_id state).status = s.toLower := by
  refine ⟨?_, ?_, ?_⟩
  · simp [get_task_status, h]
  · simp [get_task_status, h]
  · intro state
    cases state with
    | pending => left; simp [get_task_status]
    | progress info => left; simp [get_task_status]
    | success tr =>
        left
        by_cases h2 : dget tr ("status") = some (BVal.str ("error")) <;> simp [get_task_status, h2]
    | failure e => left; simp [get_task_status]
    | other s => right; exact ⟨s, rfl, rfl⟩

/-- C2 witness: the amended theorem applied at a concrete success payload. -/
theorem c2_witness :
    (get_task_status ("t2") (CeleryState.success [("status", BVal.str ("success"))])).status = "SUCCESS" :=
  (c2_success_reports_uppercase_success ("t2") [("status", BVal.str ("success"))] (by decide)).1

/-- C3: a terminal-success backend state whose payload carries
`status: 'error'` and a terminal-failure backend state are both reported
with the same external status `failed`, the former with the embedded
error value, the latter with the backend's error text. -/
theorem c3_both_failure_shapes_report_failed (task_id : String) (payload : Doc) (e : String) :
    (dget payload ("status") = some (BVal.str ("error")) →
       (get_task_status task_id (CeleryState.success payload)).status = "failed"
       ∧ (get_task_status task_id (CeleryState.success payload)).error
           = some (dgetD payload ("error") (BVal.str ("Unknown error"))))
    ∧ ((get_task_status task_id (CeleryState.failure e)).status = "failed"
       ∧ (get_task_status task_id (CeleryState.failure e)).error = some (BVal.str e)) := by
  refine ⟨fun h => ⟨?_, ?_⟩, ?_, ?_⟩
  · simp [get_task_status, h]
  · simp [get_task_status, h]
  · rfl
  · rfl

/-- C3 witness: the theorem applied at a concrete error-tagged payload. -/
theorem c3_witness :
    (get_task_status ("t3") (CeleryState.success
        [("status", BVal.str ("error")), ("error", BVal.str ("boom"))])).status = "failed" :=
  ((c3_both_failure_shapes_report_failed ("t3")
      [("status", BVal.str ("error")), ("error", BVal.str ("boom"))] ("x")).1 (by decide)).1

/-- C5: `initiate_generation` fails with a 400 and enqueues nothing when
the stripped keywords are empty, and likewise when the provider does not
resolve against the allow-list, which holds exactly for providers other
than `gemini` and `gpt`; for valid inputs it enqueues the resolved idea
task and answers with the new task id and status `pending`. -/
theorem c5_initiate_generation_validation (request : GenerateRequest) (newTaskId : String) :
    ((pyStrip request.reference_keywords).isEmpty = true →
       initiate_generation request newTaskId
         = (ApiResult.httpError 400 ("reference_keywords cannot be empty"), []))
    ∧ ((pyStrip request.reference_keywords).isEmpty = false →
        provider_tasks_idea request.provider = none →
        initiate_generation request newTaskId
          = (ApiResult.httpError 400 ("Invalid provider specified: " ++ pyStrOfOpt request.provider), []))
    ∧ (∀ task_name, (pyStrip request.reference_keywords).isEmpty = false →
        provider_tasks_idea request.provider = some task_name →
        initiate_generation request newTaskId
          = (ApiResult.ok ⟨newTaskId, "Content generation started with " ++ pyStrOfOpt request.provider, "pending"⟩,
             [⟨task_name, [BVal.str request.reference_keywords],
               [("reference_posts", bvalOfPostsOpt request.reference_posts)]⟩]))
    ∧ (provider_tasks_idea request.provider = none
        ↔ (request.provider ≠ some ("gemini") ∧ request.provider ≠ some ("gpt"))) := by
  refine ⟨fun h => ?_, fun h hp => ?_, fun tn h hp => ?_, provider_tasks_idea_eq_none _⟩
  · simp [initiate_generation, h]
  · simp [initiate_generation, h, hp]
  · simp [initiate_generation, h, hp]

/-- C5 witness: the theorem applied at empty keywords. -/
theorem c5_witness :
    initiate_generation ⟨" ", none, some ("gemini")⟩ ("tid")
      = (ApiResult.httpError 400 ("reference_keywords cannot be empty"), []) :=
  (c5_initiate_generation_validation ⟨" ", none, some ("gemini")⟩ ("tid")).1 (by decide)

/-- C10: a content id that is not a well-formed BSON ObjectId makes the
store's `get_content` raise rather than report not-found, so the GET, PUT
and DELETE content routes answer 500 on such an id, while a well-formed
but absent id is answered with 404 by the GET route. -/
theorem c10_malformed_id_raises (st : Store) (s : String) (data : Doc) (now : String)
    (h : isValidObjectId s = false) :
    MongoDB.get_content st s = Except.error invalidIdMsg
    ∧ Routes.get_content st s = ApiResult.httpError 500 ("Failed to fetch content: " ++ invalidIdMsg)
    ∧ Routes.update_content st s data now
        = (ApiResult.httpError 500 ("Failed to update content: " ++ invalidIdMsg), st)
    ∧ Routes.delete_content st s
        = (ApiResult.httpError 500 ("Failed to delete content: " ++ invalidIdMsg), st)
    ∧ ∀ s2, isValidObjectId s2 = true → Store.lookup st s2 = none →
        Routes.get_content st s2 = ApiResult.httpError 404 ("Content with ID " ++ s2 ++ " not found") := by
  refine ⟨?_, ?_, ?_, ?_, ?_⟩
  · simp [MongoDB.get_content, h]
  · simp [Routes.get_content, MongoDB.get_content, h]
  · simp [Routes.update_content, MongoDB.update_content, h]
  · simp [Routes.delete_content, MongoDB.delete_content, h]
  · intro s2 h2 hl
    simp [Routes.get_content, MongoDB.get_content, h2, hl]

/-- C10 witness: the theorem applied at the malformed id `nope`. -/
theorem c10_witness :
    Routes.get_content ⟨[], 0⟩ ("nope")
      = ApiResult.httpError 500 ("Failed to fetch content: " ++ invalidIdMsg) :=
  (c10_malformed_id_raises ⟨[], 0⟩ ("nope") [] ("t") (by decide)).2.1

/-- C4: `initiate_post_regeneration` checks record existence (404), then a
truthy idea (400), then the provider allow-list (400), in that order:
whatever the provider argument is, an absent record answers 404 and a
record lacking an idea answers the missing-idea 400; in every failure case
nothing is enqueued. Stated for well-formed record ids (a malformed id
makes the store raise before the checks, see the C10 theorem). -/
theorem c4_regeneration_precondition_order (st : Store) (content_id : String)
    (provider : Option String) (newTaskId : String)
    (hvalid : isValidObjectId content_id = true) :
    (Store.lookup st content_id = none →
       initiate_post_regeneration st ⟨content_id, provider⟩ newTaskId
         = (ApiResult.httpError 404 ("Content with ID " ++ content_id ++ " not found"), []))
    ∧ ∀ content, Store.lookup st content_id = some content →
        (pyFalsy (dget content ("idea")) = true →
           initiate_post_regeneration st ⟨content_id, provider⟩ newTaskId
             = (ApiResult.httpError 400 ("No idea found in content. Cannot regenerate post without an idea."), []))
        ∧ (pyFalsy (dget content ("idea")) = false → provider_tasks_regen provider = none →
           initiate_post_regeneration st ⟨content_id, provider⟩ newTaskId
             = (ApiResult.httpError 400 ("Invalid provider specified: " ++ pyStrOfOpt provider), [])) := by
  refine ⟨fun h => ?_, fun content hc => ⟨fun hi => ?_, fun hi hp => ?_⟩⟩
  · simp [initiate_post_regeneration, MongoDB.get_content, hvalid, h]
  · simp [initiate_post_regeneration, MongoDB.get_content, hvalid, hc, hi]
  · simp [initiate_post_regeneration, MongoDB.get_content, hvalid, hc, hi, hp]

/-- C4 witness: the theorem applied at an empty store, a well-formed id
and an invalid provider: the answer is the 404, not the provider error. -/
theorem c4_witness :
    initiate_post_regeneration ⟨[], 0⟩ ⟨"aabbccddeeff001122334455", some ("bogus")⟩ ("tid")
      = (ApiResult.httpError 404 ("Content with ID aabbccddeeff001122334455 not found"), []) := by
  have h := (c4_regeneration_precondition_order ⟨[], 0⟩ ("aabbccddeeff001122334455")
      (some ("bogus")) ("tid") (by decide)).1 rfl
  rw [h]
  simp

/-- C9: a request body that omits the `provider` field parses with
provider `gemini` and is dispatched to the gemini task variant, both for
`POST generate` and for `POST regenerate-post`. -/
theorem c9_provider_defaults_to_gemini (reference_keywords : String)
    (reference_posts : Option (Option (List String))) (content_id : String)
    (newTaskId : String) (st : Store) :
    (parseGenerateRequest reference_keywords reference_posts none).provider = some ("gemini")
    ∧ (parseRegeneratePostRequest content_id none).provider = some ("gemini")
    ∧ ((pyStrip reference_keywords).isEmpty = false →
        (initiate_generation (parseGenerateRequest reference_keywords reference_posts none) newTaskId).2.map
            (fun t => t.name) = ["tasks.generate_idea_gemini"]
        ∧ (initiate_generation (parseGenerateRequest reference_keywords reference_posts none) newTaskId).1
            = ApiResult.ok ⟨newTaskId, "Content generation started with gemini", "pending"⟩)
    ∧ ∀ content, isValidObjectId content_id = true → Store.lookup st content_id = some content →
        pyFalsy (dget content ("idea")) = false →
        (initiate_post_regeneration st (parseRegeneratePostRequest content_id none) newTaskId).2.map
            (fun t => t.name) = ["tasks.regenerate_post_gemini"] := by
  refine ⟨rfl, rfl, fun h => ?_, fun content hv hc hi => ?_⟩
  · constructor <;>
      simp [initiate_generation, parseGenerateRequest, provider_tasks_idea, h, pyStrOfOpt]
  · simp [initiate_post_regeneration, parseRegeneratePostRequest, MongoDB.get_content,
      provider_tasks_regen, hv, hc, hi]

/-- C9 witness: the theorem applied at concrete bodies with the provider
field omitted. -/
theorem c9_witness :
    (initiate_generation (parseGenerateRequest ("rockets") none none) ("tid")).2.map
        (fun t => t.name) = ["tasks.generate_idea_gemini"] :=
  ((c9_provider_defaults_to_gemini ("rockets") none ("aabbccddeeff001122334455") ("tid")
      ⟨[], 0⟩).2.2.1 (by decide)).1

/-- C7: a post task (auto-chained `generate_post_*` or explicit
`regenerate_post_*`, either provider) whose render fails, or whose
provider call fails, returns the error-tagged result and leaves the
content store completely unchanged: no record is created and no targeted
record is modified. -/
theorem c7_failed_post_task_writes_nothing (env : TaskEnv) (now : String) (st : Store)
    (idea reference_keywords : String) (reference_posts : Option (List String))
    (db_file : Option String) (e : String) :
    (env.render ("post_template.jinja2") (post_ctx env.ref_file idea reference_keywords)
        = CallResult.err e →
       generate_post_gemini env now st idea reference_keywords reference_posts db_file = (pyErrDoc e, st)
       ∧ generate_post_gpt env now st idea reference_keywords reference_posts db_file = (pyErrDoc e, st)
       ∧ regenerate_post_gemini env now st idea reference_keywords reference_posts db_file = (pyErrDoc e, st)
       ∧ regenerate_post_gpt env now st idea reference_keywords reference_posts db_file = (pyErrDoc e, st))
    ∧ ∀ prompt, env.render ("post_template.jinja2") (post_ctx env.ref_file idea reference_keywords)
        = CallResult.ok prompt →
        (env.produce_gemini prompt = CallResult.err e →
           generate_post_gemini env now st idea reference_keywords reference_posts db_file = (pyErrDoc e, st)
           ∧ regenerate_post_gemini env now st idea reference_keywords reference_posts db_file = (pyErrDoc e, st))
        ∧ (env.produce_gpt prompt = CallResult.err e →
           generate_post_gpt env now st idea reference_keywords reference_posts db_file = (pyErrDoc e, st)
           ∧ regenerate_post_gpt env now st idea reference_keywords reference_posts db_file = (pyErrDoc e, st)) := by
  constructor
  · intro h
    refine ⟨?_, ?_, ?_, ?_⟩ <;>
      simp [generate_post_gemini, generate_post_gpt, regenerate_post_gemini, regenerate_post_gpt, h]
  · intro prompt h
    constructor
    · intro hg
      constructor <;> simp [generate_post_gemini, regenerate_post_gemini, h, hg]
    · intro hg
      constructor <;> simp [generate_post_gpt, regenerate_post_gpt, h, hg]

/-- C7 witness: the theorem applied to a run whose render fails. -/
theorem c7_witness :
    generate_post_gemini
      ⟨"", fun _ _ => CallResult.err ("TemplateNotFound"), fun p => CallResult.ok p, fun p => CallResult.ok p⟩
      ("t0") ⟨[], 0⟩ ("I") ("K") none none
      = (pyErrDoc ("TemplateNotFound"), ⟨[], 0⟩) :=
  ((c7_failed_post_task_writes_nothing
      ⟨"", fun _ _ => CallResult.err ("TemplateNotFound"), fun p => CallResult.ok p, fun p => CallResult.ok p⟩
      ("t0") ⟨[], 0⟩ ("I") ("K") none none ("TemplateNotFound")).1 rfl).1

/-- C6: when the gemini idea task's render and provider call both succeed,
the task answers success with the new record id, and fetching that id
from the resulting store yields a record with `type` `idea`, provider
`gemini`, the supplied keywords as `reference_keywords`, `idea` equal to
exactly the produced text, and an empty `posts` array. -/
theorem c6_idea_task_roundtrip (env : TaskEnv) (now : String) (st : Store)
    (reference_keywords : String) (reference_posts : Option (List String))
    (prompt idea : String)
    (hr : env.render ("idea_template.jinja2") (idea_ctx_gemini env.ref_file reference_keywords)
        = CallResult.ok prompt)
    (hp : env.produce_gemini prompt = CallResult.ok idea) :
    (generate_idea_gemini env now st reference_keywords reference_posts).1
      = [("status", BVal.str ("success")), ("idea", BVal.str idea),
         ("db_file", BVal.str (freshId st.counter))]
    ∧ MongoDB.get_content (generate_idea_gemini env now st reference_keywords reference_posts).2.1
        (freshId st.counter)
      = Except.ok (some
          [("timestamp", BVal.str now), ("type", BVal.str ("idea")),
           ("provider", BVal.str ("gemini")),
           ("reference_keywords", BVal.str reference_keywords),
           ("reference_posts", BVal.arr (pyOrEmpty reference_posts)),
           ("idea", BVal.str idea), ("posts", BVal.arr [])]) := by
  constructor
  · simp [generate_idea_gemini, hr, hp, MongoDB.save_content]
  · simp [generate_idea_gemini, hr, hp, MongoDB.save_content, MongoDB.get_content,
      freshId_valid, Store.lookup, lookupDoc, dget]

/-- C6 witness: the theorem applied to concrete succeeding oracles. -/
theorem c6_witness :
    (generate_idea_gemini
        ⟨"", fun _ _ => CallResult.ok ("P"), fun _ => CallResult.ok ("IDEA"), fun _ => CallResult.ok ("IDEA")⟩
        ("t0") ⟨[], 0⟩ ("rockets") none).1
      = [("status", BVal.str ("success")), ("idea", BVal.str ("IDEA")),
         ("db_file", BVal.str (freshId 0))] :=
  (c6_idea_task_roundtrip
      ⟨"", fun _ _ => CallResult.ok ("P"), fun _ => CallResult.ok ("IDEA"), fun _ => CallResult.ok ("IDEA")⟩
      ("t0") ⟨[], 0⟩ ("rockets") none ("P") ("IDEA") rfl rfl).1

/-- C1: evaluation at the failing input. The `MongoDB` class exposes no
`append_post` method, so with an existing record id and a succeeding
provider call the post task never appends: `generate_post_gemini` leaves
the targeted record unchanged (its `posts` stays empty) and instead
creates a second record, while `regenerate_post_gemini` terminal-fails
with the `AttributeError` and writes nothing. -/
theorem c1_append_never_happens :
    Store.lookup (generate_post_gemini c1Env ("t1") c1Store ("I") ("k") none (some c1Id)).2 c1Id
      = some c1Doc
    ∧ (generate_post_gemini c1Env ("t1") c1Store ("I") ("k") none (some c1Id)).2.docs.length = 2
    ∧ dget (generate_post_gemini c1Env ("t1") c1Store ("I") ("k") none (some c1Id)).1 ("status")
      = some (BVal.str ("success"))
    ∧ regenerate_post_gemini c1Env ("t1") c1Store ("I") ("k") none (some c1Id)
      = (pyErrDoc ("AttributeError: MongoDB object has no attribute append_post, id=" ++ c1Id ++ ", post=NEWPOST"),
         c1Store) := by
  refine ⟨?_, ?_, ?_, ?_⟩ <;> rfl

/-- C8 counterexample: `update_content` raises on a malformed id rather
than returning false, and returns false for an existing id whose merge
does not change the document (MongoDB reports `modified_count == 0`
there), so the claim's ``returns false only for absent ids, true for every
existing id'' fails in both directions. -/
theorem c8_counterexample :
    MongoDB.update_content c8Store ("not-an-objectid") [("idea", BVal.str ("y"))] ("t1")
      = Except.error invalidIdMsg
    ∧ Store.lookup c8Store c8Id = some c8Doc
    ∧ MongoDB.update_content c8Store c8Id [] ("t0") = Except.ok (false, c8Store) := by
  refine ⟨rfl, rfl, rfl⟩

/-- C8 (amended): for a well-formed existing id whose merge actually
changes the document, `update_content` changes only the named fields plus
`updated_at` (every other field of the record, and every other record,
keeps its value), refreshes `updated_at` to the current time, and returns
true; it returns false (not an error) for a well-formed absent id, and
also for an existing id whose merge is a no-op; a malformed id raises
(see the counterexample). -/
theorem c8_merge_update_frame (st : Store) (document_id : String) (update_data : Doc) (now : String)
    (hvalid : isValidObjectId document_id = true)
    (hnd : (update_data.map Prod.fst).Nodup) :
    (∀ d, Store.lookup st document_id = some d →
       (mergedDoc d update_data now ≠ d →
          MongoDB.update_content st document_id update_data now
            = Except.ok (true, Store.replace st document_id (mergedDoc d update_data now))
          ∧ dget (mergedDoc d update_data now) ("updated_at") = some (BVal.str now)
          ∧ (∀ k, k ≠ "updated_at" → (∀ p ∈ update_data, p.1 ≠ k) →
               dget (mergedDoc d update_data now) k = dget d k)
          ∧ Store.lookup (Store.replace st document_id (mergedDoc d update_data now)) document_id
              = some (mergedDoc d update_data now)
          ∧ (∀ id2, id2 ≠ document_id →
               Store.lookup (Store.replace st document_id (mergedDoc d update_data now)) id2
                 = Store.lookup st id2))
       ∧ (mergedDoc d update_data now = d →
           MongoDB.update_content st document_id update_data now = Except.ok (false, st)))
    ∧ (Store.lookup st document_id = none →
        MongoDB.update_content st document_id update_data now = Except.ok (false, st)) := by
  refine ⟨fun d hd => ⟨fun hne => ⟨?_, ?_, ?_, ?_, ?_⟩, fun heq => ?_⟩, fun hnone => ?_⟩
  · have hne2 : dsetAll d (dset update_data ("updated_at") (BVal.str now)) ≠ d := hne
    simp [MongoDB.update_content, hvalid, hd, hne2, mergedDoc]
  · have hmem := mem_dset_self update_data ("updated_at") (BVal.str now)
    have hnd2 := keys_dset_nodup update_data ("updated_at") (BVal.str now) hnd
    exact dget_dsetAll_mem (dset update_data ("updated_at") (BVal.str now)) ("updated_at")
      (BVal.str now) d hmem hnd2
  · intro k hk hnotin
    have hall : ∀ p ∈ dset update_data ("updated_at") (BVal.str now), p.1 ≠ k := by
      intro p hpmem
      rcases mem_dset update_data ("updated_at") (BVal.str now) p hpmem with h1 | h1
      · exact hnotin p h1
      · subst h1
        exact fun hcontra => hk hcontra.symm
    exact dget_dsetAll_not_mem (dset update_data ("updated_at") (BVal.str now)) k d hall
  · have hsome : (lookupDoc st.docs document_id).isSome := by
      have hd2 : lookupDoc st.docs document_id = some d := hd
      rw [hd2]
      rfl
    exact lookupDoc_replaceDoc_self st.docs document_id (mergedDoc d update_data now) hsome
  · intro id2 hne2
    exact lookupDoc_replaceDoc_ne st.docs document_id id2 (mergedDoc d update_data now) hne2
  · have heq2 : dsetAll d (dset update_data ("updated_at") (BVal.str now)) = d := heq
    simp [MongoDB.update_content, hvalid, hd, heq2]
  · simp [MongoDB.update_content, hvalid, hnone]

/-- C8 witness: the amended theorem applied to a concrete store and a
merge that changes the record. -/
theorem c8_witness :
    MongoDB.update_content ⟨[(c8Id, [("idea", BVal.str ("x"))])], 0⟩ c8Id
        [("idea", BVal.str ("y"))] ("t9")
      = Except.ok (true, Store.replace ⟨[(c8Id, [("idea", BVal.str ("x"))])], 0⟩ c8Id
          (mergedDoc [("idea", BVal.str ("x"))] [("idea", BVal.str ("y"))] ("t9"))) :=
  (((c8_merge_update_frame ⟨[(c8Id, [("idea", BVal.str ("x"))])], 0⟩ c8Id
      [("idea", BVal.str ("y"))] ("t9") (by decide) (by decide)).1
      [("idea", BVal.str ("x"))] rfl).1 (by decide)).1
